import Mathlib

/-!
Verification development for the Olist decision dashboard (app.py).

The script loads five CSV tables (orders, segments, impact scenarios,
policy-firing logs, incidents), substitutes synthetic demo tables for
missing files, and derives a 90-day analysis window, weekly aggregates,
KPI reductions, a segment/impact rollup and a policy rollup.

Modelling conventions:
* Timestamps are integers counting days since 1970-01-01 (a Thursday),
  so `pd.Timedelta(days=n)` is the integer `n` and Mondays are the days
  congruent to 4 modulo 7.
* Numeric columns are rationals (ℚ); a possibly-missing (NaN) numeric
  value is an `Option ℚ` with `none` for NaN.  Aggregations that the
  program only ever applies to nonempty groups (the per-week means) are
  total ℚ-valued; the percentile aggregations, which the program can hit
  with empty input, are `Option`-valued with `none` playing NaN.
* A pandas DataFrame is a `List` of row structures; `groupby` keys are
  deduplicated and sorted ascending as pandas does.
-/

set_option maxHeartbeats 1000000

namespace Olist

/-- A row of `olist_clean_with_features.csv` (the order table).
`order_purchase_timestamp` is in days; `on_time` is the 0/1 flag column;
`delivery_time_days` may be missing (NaN = `none`). -/
structure OrderRow where
  order_id : Int
  order_purchase_timestamp : Int
  on_time : Int
  delivery_time_days : Option ℚ
  review_score_mean : ℚ
  gross_revenue : ℚ
deriving DecidableEq, Repr

/-- `Series.max` of an integer column: `none` on an empty table (pandas NaN). -/
def listMaxInt : List Int → Option Int
  | [] => none
  | x :: xs => some (xs.foldl max x)

/-- `end_date = clean["order_purchase_timestamp"].max()` (line 116). -/
def end_date (clean : List OrderRow) : Option Int :=
  listMaxInt (clean.map (·.order_purchase_timestamp))

/-- `df90 = clean[clean["order_purchase_timestamp"].between(start_90, end_date)]`
with `start_90 = end_date - pd.Timedelta(days=90)` (lines 117-118).
`between` is inclusive on both ends; on an empty table the window is empty. -/
def df90 (clean : List OrderRow) : List OrderRow :=
  match end_date clean with
  | none => []
  | some e =>
      clean.filter (fun r =>
        decide (e - 90 ≤ r.order_purchase_timestamp) &&
        decide (r.order_purchase_timestamp ≤ e))

/-- C1: the 90-day window selects exactly the rows whose purchase timestamp
lies in the closed interval [max − 90 days, max], inclusive at both ends. -/
theorem df90_window (clean : List OrderRow) (e : Int)
    (he : end_date clean = some e) (r : OrderRow) :
    r ∈ df90 clean ↔
      r ∈ clean ∧ e - 90 ≤ r.order_purchase_timestamp ∧
        r.order_purchase_timestamp ≤ e := by
  simp [df90, he, List.mem_filter, and_assoc]

/-- Witness for C1 at a concrete three-row order table whose maximum
purchase timestamp is day 100. -/
theorem df90_window_witness :
    (⟨2, 9, 1, none, 5, 10⟩ : OrderRow) ∈
        df90 [⟨1, 10, 1, none, 5, 10⟩, ⟨2, 9, 1, none, 5, 10⟩,
              ⟨3, 100, 1, none, 5, 10⟩] ↔
      (⟨2, 9, 1, none, 5, 10⟩ : OrderRow) ∈
          [⟨1, 10, 1, none, 5, 10⟩, ⟨2, 9, 1, none, 5, 10⟩,
           ⟨3, 100, 1, none, 5, 10⟩] ∧
        (100 : Int) - 90 ≤ 9 ∧ (9 : Int) ≤ 100 :=
  df90_window
    [⟨1, 10, 1, none, 5, 10⟩, ⟨2, 9, 1, none, 5, 10⟩,
     ⟨3, 100, 1, none, 5, 10⟩] 100 (by decide) ⟨2, 9, 1, none, 5, 10⟩

/-! ### Generic ordering / grouping helpers (pandas `groupby` sorts keys) -/

/-- Insert into a sorted list, as used by the insertion sort below. -/
def insertBy (le : α → α → Bool) (a : α) : List α → List α
  | [] => [a]
  | y :: ys => if le a y then a :: y :: ys else y :: insertBy le a ys

/-- Insertion sort; models the ascending key order of pandas `groupby`. -/
def sortBy (le : α → α → Bool) : List α → List α
  | [] => []
  | x :: xs => insertBy le x (sortBy le xs)

theorem mem_insertBy (le : α → α → Bool) (a x : α) (l : List α) :
    x ∈ insertBy le a l ↔ x = a ∨ x ∈ l := by
  induction l with
  | nil => simp [insertBy]
  | cons y ys ih =>
      by_cases h : le a y = true
      · simp [insertBy, h]
      · simp [insertBy, h, ih]
        tauto

theorem mem_sortBy (le : α → α → Bool) (x : α) (l : List α) :
    x ∈ sortBy le l ↔ x ∈ l := by
  induction l with
  | nil => simp [sortBy]
  | cons y ys ih => simp [sortBy, mem_insertBy, ih]

/-! ### Weekly aggregation (lines 120-126) -/

/-- `ts.dt.to_period("W").start_time`: the Monday beginning the calendar
week of day `t`.  Day 4 (1970-01-05) is a Monday, so Mondays are the days
congruent to 4 modulo 7; `Int.emod` is nonnegative here. -/
def weekStart (t : Int) : Int := t - (t - 4) % 7

/-- The group keys of the weekly `groupby`: the distinct week starts of
the rows, in ascending order as pandas produces them. -/
def weekKeys (rows : List OrderRow) : List Int :=
  sortBy (fun a b => decide (a ≤ b))
    ((rows.map (fun r => weekStart r.order_purchase_timestamp)).dedup)

/-- The rows of `rows` falling in the calendar week starting at `w`. -/
def weekRows (rows : List OrderRow) (w : Int) : List OrderRow :=
  rows.filter (fun r => weekStart r.order_purchase_timestamp == w)

/-- `Series.mean` over a nonempty group (the weekly `groupby` only ever
averages nonempty groups; see `nanpercentile` for the empty/NaN case). -/
def mean (xs : List ℚ) : ℚ := xs.sum / xs.length

/-- Count of distinct values: `Series.nunique`. -/
def nunique (xs : List Int) : Nat := xs.dedup.length

/-- One row of the `weekly` frame: the group key (kept under the original
column name by `reset_index`) and the three aggregates of line 122-123. -/
structure WeeklyRow where
  order_purchase_timestamp : Int
  orders : Nat
  otd : ℚ
  review : ℚ
deriving DecidableEq, Repr

/-- The weekly aggregation (lines 120-124):
group by week start; `orders = nunique(order_id)`, `otd = mean(on_time)`,
`review = mean(review_score_mean)`. -/
def weekly (rows : List OrderRow) : List WeeklyRow :=
  (weekKeys rows).map (fun w =>
    { order_purchase_timestamp := w
      orders := nunique ((weekRows rows w).map (·.order_id))
      otd := mean ((weekRows rows w).map (fun r => (r.on_time : ℚ)))
      review := mean ((weekRows rows w).map (·.review_score_mean)) })

/-- `weekly["otd_pct"] = weekly["otd"]*100` (line 125). -/
def otd_pct (wr : WeeklyRow) : ℚ := wr.otd * 100

/-- `weekly["review"].rolling(4, min_periods=1).mean()` at index `i`:
the mean of the trailing window of up to 4 values ending at `i`
(natural subtraction makes the window start at `max 0 (i-3)`). -/
def review_rolling (xs : List ℚ) (i : Nat) : ℚ :=
  mean ((xs.take (i + 1)).drop (i + 1 - 4))

theorem sum_le_length_of_mem_01 (xs : List ℚ) (h : ∀ x ∈ xs, x = 0 ∨ x = 1) :
    0 ≤ xs.sum ∧ xs.sum ≤ (xs.length : ℚ) := by
  induction xs with
  | nil => simp
  | cons a l ih =>
      have ha := h a (by simp)
      have hl := ih (fun x hx => h x (by simp [hx]))
      rcases ha with ha | ha <;>
        simp only [List.sum_cons, List.length_cons, ha, Nat.cast_succ] <;>
        constructor <;> linarith [hl.1, hl.2]

theorem mean_01_bounds (xs : List ℚ) (hne : xs ≠ [])
    (h01 : ∀ x ∈ xs, x = 0 ∨ x = 1) : 0 ≤ mean xs ∧ mean xs ≤ 1 := by
  have hb := sum_le_length_of_mem_01 xs h01
  have hlen : 0 < (xs.length : ℚ) := by exact_mod_cast List.length_pos.mpr hne
  exact ⟨div_nonneg hb.1 hlen.le, (div_le_one hlen).mpr hb.2⟩

theorem mem_weekKeys (rows : List OrderRow) (w : Int) :
    w ∈ weekKeys rows ↔
      ∃ r ∈ rows, weekStart r.order_purchase_timestamp = w := by
  simp [weekKeys, mem_sortBy, List.mem_dedup, eq_comm]

theorem weekRows_ne_nil (rows : List OrderRow) (w : Int)
    (hw : w ∈ weekKeys rows) : weekRows rows w ≠ [] := by
  rcases (mem_weekKeys rows w).mp hw with ⟨r, hr, hrw⟩
  have : r ∈ weekRows rows w := by
    simp [weekRows, List.mem_filter, hr, hrw]
  intro hnil
  rw [hnil] at this
  exact absurd this (List.not_mem_nil r)

/-- C2: every week key of the weekly aggregation yields a weekly row whose
on-time percentage is 100 times the mean of that week's on_time flags,
lies in [0, 100] when the flags are 0/1, and whose order count is the
number of distinct order ids of that week. -/
theorem weekly_otd_pct_spec (clean : List OrderRow) (w : Int)
    (hw : w ∈ weekKeys (df90 clean))
    (hflag : ∀ r ∈ weekRows (df90 clean) w, r.on_time = 0 ∨ r.on_time = 1) :
    ∃ wr ∈ weekly (df90 clean),
      wr.order_purchase_timestamp = w ∧
      otd_pct wr =
        100 * mean ((weekRows (df90 clean) w).map (fun r => (r.on_time : ℚ))) ∧
      0 ≤ otd_pct wr ∧ otd_pct wr ≤ 100 ∧
      wr.orders = ((weekRows (df90 clean) w).map (·.order_id)).dedup.length := by
  have hwne := weekRows_ne_nil (df90 clean) w hw
  have hne : (weekRows (df90 clean) w).map (fun r => (r.on_time : ℚ)) ≠ [] := by
    simpa using hwne
  have h01 : ∀ x ∈ (weekRows (df90 clean) w).map (fun r => (r.on_time : ℚ)),
      x = 0 ∨ x = 1 := by
    intro x hx
    rcases List.mem_map.mp hx with ⟨r, hr, hrx⟩
    rcases hflag r hr with h | h <;> simp [← hrx, h]
  have hb := mean_01_bounds _ hne h01
  unfold weekly
  refine ⟨_, List.mem_map.mpr ⟨w, hw, rfl⟩, rfl, ?_, ?_, ?_, rfl⟩
  · simp [otd_pct, mul_comm]
  · simp only [otd_pct]
    nlinarith [hb.1]
  · simp only [otd_pct]
    nlinarith [hb.2]

/-- Witness for C2 at a two-row window falling in one week. -/
theorem weekly_otd_pct_witness :
    (4 ∈ weekKeys (df90 [⟨1, 4, 1, none, 5, 10⟩, ⟨2, 5, 0, none, 3, 10⟩])) ∧
      (∃ wr ∈ weekly (df90 [⟨1, 4, 1, none, 5, 10⟩, ⟨2, 5, 0, none, 3, 10⟩]),
        wr.order_purchase_timestamp = 4 ∧
        otd_pct wr =
          100 * mean ((weekRows
            (df90 [⟨1, 4, 1, none, 5, 10⟩, ⟨2, 5, 0, none, 3, 10⟩]) 4).map
              (fun r => (r.on_time : ℚ))) ∧
        0 ≤ otd_pct wr ∧ otd_pct wr ≤ 100 ∧
        wr.orders = ((weekRows
          (df90 [⟨1, 4, 1, none, 5, 10⟩, ⟨2, 5, 0, none, 3, 10⟩]) 4).map
            (·.order_id)).dedup.length) :=
  ⟨by decide,
    weekly_otd_pct_spec [⟨1, 4, 1, none, 5, 10⟩, ⟨2, 5, 0, none, 3, 10⟩] 4
      (by decide) (by decide)⟩

/-- C3: the 4-week rolling review average at 0-based index `i` is the sum of
the trailing window divided by `min 4 (i+1)`; that window is a suffix of the
first `i+1` values (it ends at the current week), has exactly `min 4 (i+1)`
elements, and the divisor is positive, so the value is defined as soon as one
week of data exists. -/
theorem review_rolling_spec (xs : List ℚ) (i : Nat) (h : i < xs.length) :
    ((xs.take (i + 1)).drop (i + 1 - 4)).length = min 4 (i + 1) ∧
      (xs.take (i + 1)).drop (i + 1 - 4) <:+ xs.take (i + 1) ∧
      review_rolling xs i =
        ((xs.take (i + 1)).drop (i + 1 - 4)).sum / ((min 4 (i + 1) : Nat) : ℚ) ∧
      0 < min 4 (i + 1) := by
  have hlen1 : (xs.take (i + 1)).length = i + 1 := by
    rw [List.length_take]; omega
  have hlen : ((xs.take (i + 1)).drop (i + 1 - 4)).length = min 4 (i + 1) := by
    rw [List.length_drop, hlen1]; omega
  refine ⟨hlen, List.drop_suffix _ _, ?_, by omega⟩
  simp only [review_rolling, mean, hlen]

/-- Witness for C3 on the five-week series [1, 2, 3, 4, 5] at index 4. -/
theorem review_rolling_spec_witness :
    ((([1, 2, 3, 4, 5] : List ℚ).take (4 + 1)).drop (4 + 1 - 4)).length
        = min 4 (4 + 1) ∧
      (([1, 2, 3, 4, 5] : List ℚ).take (4 + 1)).drop (4 + 1 - 4) <:+
        ([1, 2, 3, 4, 5] : List ℚ).take (4 + 1) ∧
      review_rolling ([1, 2, 3, 4, 5] : List ℚ) 4 =
        ((([1, 2, 3, 4, 5] : List ℚ).take (4 + 1)).drop (4 + 1 - 4)).sum /
          ((min 4 (4 + 1) : Nat) : ℚ) ∧
      0 < min 4 (4 + 1) :=
  review_rolling_spec [1, 2, 3, 4, 5] 4 (by decide)

/-! ### Impact scenarios (lines 64-87, 147-148, 185-188) -/

/-- A row of `impact_models.csv`.  Persian column names are transliterated:
`segment` = سگمنت, `scenario_label` = سناریو, `gmv_base_90` = GMV پایه (۹۰ روز),
`orders_90` = سفارش‌ها (۹۰ روز), `incr_gmv` = افزایش GMV (۹۰ روز),
`platform_share` = سهم پلتفرم از افزایش GMV, `total_cost` = هزینه کل,
`net_effect` = خالص اثر بر پلتفرم. -/
structure ImpactRow where
  segment : String
  scenario_label : String
  gmv_base_90 : ℚ
  orders_90 : ℚ
  aov : ℚ
  uplift_gmv_pct : ℚ
  cost_per_order : ℚ
  take_rate : ℚ
  incr_gmv : ℚ
  platform_share : ℚ
  total_cost : ℚ
  net_effect : ℚ
deriving DecidableEq, Repr

/-- The base-scenario label "پایه" (line 147). -/
def scenario_base : String := "پایه"

/-- The synthetic-impact derivation `recalc` (lines 81-86): incremental GMV,
platform share, total cost and net effect from the row's base columns. -/
def recalc (r : ImpactRow) : ImpactRow :=
  let incr := r.gmv_base_90 * (r.uplift_gmv_pct / 100)
  let plat := incr * r.take_rate
  let cost := r.orders_90 * r.cost_per_order
  let net := plat - cost
  { r with incr_gmv := incr, platform_share := plat,
           total_cost := cost, net_effect := net }

/-- `impact_base = impact[impact["سناریو"]=="پایه"]` (line 147). -/
def impact_base (impact : List ImpactRow) : List ImpactRow :=
  impact.filter (fun r => r.scenario_label == scenario_base)

/-- `net_gain = impact_base["خالص اثر بر پلتفرم"].sum()` (line 148). -/
def net_gain (impact : List ImpactRow) : ℚ :=
  ((impact_base impact).map (·.net_effect)).sum

theorem net_effect_recalc (r : ImpactRow) :
    (recalc r).net_effect =
      (recalc r).gmv_base_90 * ((recalc r).uplift_gmv_pct / 100) *
          (recalc r).take_rate -
        (recalc r).orders_90 * (recalc r).cost_per_order := rfl

/-- C4: on a recalc-derived impact table, the per-segment base-scenario
net-effect sum is the sum of baseline GMV × (uplift % / 100) × take rate −
orders × cost-per-order over those rows, and `recalc` populates every derived
column by exactly that formula. -/
theorem impact_recalc_spec (rows : List ImpactRow) (s : String) :
    ((((impact_base (rows.map recalc)).filter
          (fun r => r.segment == s)).map (·.net_effect)).sum =
        (((impact_base (rows.map recalc)).filter
            (fun r => r.segment == s)).map
          (fun r => r.gmv_base_90 * (r.uplift_gmv_pct / 100) * r.take_rate -
            r.orders_90 * r.cost_per_order)).sum) ∧
      ∀ r : ImpactRow,
        (recalc r).incr_gmv = r.gmv_base_90 * (r.uplift_gmv_pct / 100) ∧
        (recalc r).platform_share = (recalc r).incr_gmv * r.take_rate ∧
        (recalc r).total_cost = r.orders_90 * r.cost_per_order ∧
        (recalc r).net_effect =
          (recalc r).platform_share - (recalc r).total_cost := by
  constructor
  · refine congrArg List.sum (List.map_congr_left ?_)
    intro a ha
    have ha2 : a ∈ rows.map recalc :=
      List.mem_of_mem_filter (List.mem_of_mem_filter ha)
    rcases List.mem_map.mp ha2 with ⟨r, _, hr⟩
    rw [← hr]
    exact net_effect_recalc r
  · intro r
    exact ⟨rfl, rfl, rfl, rfl⟩

/-! ### Segment table and left join (lines 51-62, 185-188) -/

/-- A row of `segments_summary.csv` (columns transliterated from Persian:
`segment` = سگمنت, `rule_text` = قاعده, `size` = اندازه,
`p90_days` = زمان تحویل (p90), `repeat_90` = تکرار خرید ۹۰روزه,
`gmv_90d` = GMV/90d, `play` = بازی پیشنهادی). -/
structure SegRow where
  segment : String
  rule_text : String
  size : ℚ
  otd : ℚ
  p90_days : ℚ
  repeat_90 : ℚ
  gmv_90d : ℚ
  play : String
deriving DecidableEq, Repr

/-- The distinct segment names of a table, ascending (pandas `groupby` key
order). -/
def segKeys (rows : List ImpactRow) : List String :=
  sortBy (fun a b => !decide (b < a)) ((rows.map (·.segment)).dedup)

/-- `base_impact = impact_base[[...]].groupby("سگمنت").sum()` (lines 185-187):
one row per distinct base-scenario segment with the summed net effect. -/
def base_impact (impact : List ImpactRow) : List (String × ℚ) :=
  (segKeys (impact_base impact)).map (fun s =>
    (s, (((impact_base impact).filter
        (fun r => r.segment == s)).map (·.net_effect)).sum))

/-- `seg_view = seg.merge(base_impact, on="سگمنت", how="left")` (line 188):
a left join, with `none` for segments that have no base-impact row (pandas
NaN). -/
def seg_view (seg : List SegRow) (impact : List ImpactRow) :
    List (SegRow × Option ℚ) :=
  seg.map (fun sr => (sr, List.lookup sr.segment (base_impact impact)))

theorem lookup_keys_map (f : String → ℚ) (s : String) (ks : List String) :
    List.lookup s (ks.map (fun k => (k, f k))) =
      if s ∈ ks then some (f s) else none := by
  induction ks with
  | nil => simp
  | cons k ks ih =>
      by_cases h : s = k
      · simp [List.lookup, h]
      · have hb : (s == k) = false := by simp [h]
        simp [List.lookup, hb, ih, h]

theorem mem_segKeys (impact : List ImpactRow) (s : String) :
    s ∈ segKeys (impact_base impact) ↔
      ∃ r ∈ impact_base impact, r.segment = s := by
  simp [segKeys, mem_sortBy, List.mem_dedup, eq_comm]

/-- C5: in the joined segment view, a segment with no matching base-scenario
impact row carries the missing value `none` (which is distinct from `some 0`),
while a segment with matching rows carries the summed net platform effect. -/
theorem seg_view_left_join (seg : List SegRow) (impact : List ImpactRow)
    (sr : SegRow) (h : sr ∈ seg) :
    ((∀ r ∈ impact_base impact, r.segment ≠ sr.segment) →
        (sr, (none : Option ℚ)) ∈ seg_view seg impact) ∧
      ((∃ r ∈ impact_base impact, r.segment = sr.segment) →
        (sr, some ((((impact_base impact).filter
            (fun r => r.segment == sr.segment)).map (·.net_effect)).sum)) ∈
          seg_view seg impact) ∧
      (none : Option ℚ) ≠ some 0 := by
  refine ⟨?_, ?_, by simp⟩
  · intro hno
    have hkey : sr.segment ∉ segKeys (impact_base impact) := by
      rw [mem_segKeys]
      rintro ⟨r, hr, hrs⟩
      exact hno r hr hrs
    have : List.lookup sr.segment (base_impact impact) = none := by
      rw [base_impact, lookup_keys_map]
      simp [hkey]
    unfold seg_view
    exact List.mem_map.mpr ⟨sr, h, by rw [this]⟩
  · intro hyes
    have hkey : sr.segment ∈ segKeys (impact_base impact) :=
      (mem_segKeys impact sr.segment).mpr hyes
    have : List.lookup sr.segment (base_impact impact) =
        some ((((impact_base impact).filter
          (fun r => r.segment == sr.segment)).map (·.net_effect)).sum) := by
      rw [base_impact, lookup_keys_map]
      simp [hkey]
    unfold seg_view
    exact List.mem_map.mpr ⟨sr, h, by rw [this]⟩

/-- Witness for C5: one segment with a base-scenario impact row, one without. -/
theorem seg_view_left_join_witness :
    ((∀ r ∈ impact_base
          [⟨"S1", scenario_base, 1000, 10, 100, 6, 1, 1/10, 0, 0, 0, 0⟩],
        r.segment ≠ (⟨"S2", "rule", 1, 1, 1, 1, 1, "play"⟩ : SegRow).segment) →
        ((⟨"S2", "rule", 1, 1, 1, 1, 1, "play"⟩ : SegRow), (none : Option ℚ)) ∈
          seg_view [⟨"S2", "rule", 1, 1, 1, 1, 1, "play"⟩]
            [⟨"S1", scenario_base, 1000, 10, 100, 6, 1, 1/10, 0, 0, 0, 0⟩]) ∧
      ((∃ r ∈ impact_base
            [⟨"S1", scenario_base, 1000, 10, 100, 6, 1, 1/10, 0, 0, 0, 0⟩],
          r.segment = (⟨"S2", "rule", 1, 1, 1, 1, 1, "play"⟩ : SegRow).segment) →
        ((⟨"S2", "rule", 1, 1, 1, 1, 1, "play"⟩ : SegRow),
            some ((((impact_base
                [⟨"S1", scenario_base, 1000, 10, 100, 6, 1, 1/10, 0, 0, 0, 0⟩]).filter
              (fun r => r.segment ==
                (⟨"S2", "rule", 1, 1, 1, 1, 1, "play"⟩ : SegRow).segment)).map
                (·.net_effect)).sum)) ∈
          seg_view [⟨"S2", "rule", 1, 1, 1, 1, 1, "play"⟩]
            [⟨"S1", scenario_base, 1000, 10, 100, 6, 1, 1/10, 0, 0, 0, 0⟩]) ∧
      (none : Option ℚ) ≠ some 0 :=
  seg_view_left_join [⟨"S2", "rule", 1, 1, 1, 1, 1, "play"⟩]
    [⟨"S1", scenario_base, 1000, 10, 100, 6, 1, 1/10, 0, 0, 0, 0⟩]
    ⟨"S2", "rule", 1, 1, 1, 1, 1, "play"⟩ (by decide)

/-! ### Policy-status rollup (lines 204-215) -/

/-- A row of `ffd_logs.csv`: timestamp (days), node identifier, 0/1
guardrail-fired flag. -/
structure FfdRow where
  timestamp : Int
  node : String
  guardrail_fired : Int
deriving DecidableEq, Repr

/-- `last7 = ffd[ffd["timestamp"] >= ffd["timestamp"].max() - 7 days]`
(line 204); empty when the log is empty. -/
def last7 (ffd : List FfdRow) : List FfdRow :=
  match listMaxInt (ffd.map (·.timestamp)) with
  | none => []
  | some m => ffd.filter (fun r => decide (m - 7 ≤ r.timestamp))

/-- `node_counts = last7.groupby("node")["timestamp"].count()` (line 205). -/
def node_counts (rows : List FfdRow) : List (String × Nat) :=
  (sortBy (fun a b => !decide (b < a)) ((rows.map (·.node)).dedup)).map
    (fun nd => (nd, (rows.filter (fun r => r.node == nd)).length))

/-- The displayed node table, `sort_values("fires", ascending=False)`
(line 211). -/
def node_counts_sorted (rows : List FfdRow) : List (String × Nat) :=
  sortBy (fun a b => decide (b.2 ≤ a.2)) (node_counts rows)

/-- `gr_counts = last7.groupby("guardrail_fired")["timestamp"].count()`
(line 206). -/
def gr_counts (rows : List FfdRow) : List (Int × Nat) :=
  (sortBy (fun a b => decide (a ≤ b)) ((rows.map (·.guardrail_fired)).dedup)).map
    (fun g => (g, (rows.filter (fun r => r.guardrail_fired == g)).length))

/-- `gr_counts["guardrail_fired"].map({0:"No",1:"Yes"})` (line 214); any
other flag value maps to missing. -/
def grLabel (g : Int) : Option String :=
  if g = 0 then some "No" else if g = 1 then some "Yes" else none

/-- The displayed guardrail table `gr_counts[["label","count"]]` (line 215). -/
def gr_labeled (rows : List FfdRow) : List (Option String × Nat) :=
  (gr_counts rows).map (fun p => (grLabel p.1, p.2))

theorem dedup_const {α : Type} [DecidableEq α] (a : α) (l : List α)
    (h : ∀ x ∈ l, x = a) (hne : l ≠ []) : l.dedup = [a] := by
  induction l with
  | nil => cases hne rfl
  | cons x xs ih =>
      have hx : x = a := h x (by simp)
      by_cases hxs : xs = []
      · subst hxs
        simp [hx]
      · have hd := ih (fun y hy => h y (by simp [hy])) hxs
        have hmem : x ∈ xs := by
          rcases List.exists_mem_of_ne_nil xs hxs with ⟨y, hy⟩
          have : y = a := h y (by simp [hy])
          rw [hx, ← this]
          exact hy
        rw [List.dedup_cons_of_mem hmem, hd]

/-- C7: the policy rollup keeps exactly the log entries at most 7 days before
the log's own maximum timestamp; on a log spanning at most 7 days in which
every entry is on node "A" with `guardrail_fired = 1`, the node-fire table is
the single row ("A", total) (already descending) and the guardrail table is
the single row (Yes, total). -/
theorem policy_rollup_spec (ffd : List FfdRow) (m : Int)
    (hm : listMaxInt (ffd.map (·.timestamp)) = some m)
    (hspan : ∀ r ∈ ffd, m - 7 ≤ r.timestamp)
    (hnode : ∀ r ∈ ffd, r.node = "A")
    (hgr : ∀ r ∈ ffd, r.guardrail_fired = 1)
    (hne : ffd ≠ []) :
    (∀ r : FfdRow, r ∈ last7 ffd ↔ r ∈ ffd ∧ m - 7 ≤ r.timestamp) ∧
      node_counts_sorted (last7 ffd) = [("A", ffd.length)] ∧
      gr_labeled (last7 ffd) = [(some "Yes", ffd.length)] := by
  have hlast : last7 ffd = ffd := by
    unfold last7
    rw [hm]
    refine List.filter_eq_self.mpr ?_
    intro a ha
    simpa using hspan a ha
  have hnodes : (ffd.map (·.node)).dedup = ["A"] := by
    refine dedup_const _ _ ?_ (by simpa using hne)
    intro x hx
    rcases List.mem_map.mp hx with ⟨r, hr, hrx⟩
    rw [← hrx]
    exact hnode r hr
  have hgrs : (ffd.map (·.guardrail_fired)).dedup = [1] := by
    refine dedup_const _ _ ?_ (by simpa using hne)
    intro x hx
    rcases List.mem_map.mp hx with ⟨r, hr, hrx⟩
    rw [← hrx]
    exact hgr r hr
  have hfiltn : ffd.filter (fun r => r.node == "A") = ffd := by
    refine List.filter_eq_self.mpr ?_
    intro a ha
    simp [hnode a ha]
  have hfiltg : ffd.filter (fun r => r.guardrail_fired == 1) = ffd := by
    refine List.filter_eq_self.mpr ?_
    intro a ha
    simp [hgr a ha]
  refine ⟨?_, ?_, ?_⟩
  · intro r
    rw [hlast]
    constructor
    · intro hr
      exact ⟨hr, hspan r hr⟩
    · exact fun hr => hr.1
  · rw [node_counts_sorted, node_counts, hlast, hnodes]
    simp [sortBy, insertBy, hfiltn]
  · rw [gr_labeled, gr_counts, hlast, hgrs]
    simp [sortBy, insertBy, hfiltg, grLabel]

/-- Witness for C7 on a two-entry log spanning exactly 7 days. -/
theorem policy_rollup_spec_witness :
    (∀ r : FfdRow,
        r ∈ last7 [⟨0, "A", 1⟩, ⟨7, "A", 1⟩] ↔
          r ∈ [⟨0, "A", 1⟩, ⟨7, "A", 1⟩] ∧ (7 : Int) - 7 ≤ r.timestamp) ∧
      node_counts_sorted (last7 [⟨0, "A", 1⟩, ⟨7, "A", 1⟩]) =
        [("A", ([⟨0, "A", 1⟩, ⟨7, "A", 1⟩] : List FfdRow).length)] ∧
      gr_labeled (last7 [⟨0, "A", 1⟩, ⟨7, "A", 1⟩]) =
        [(some "Yes", ([⟨0, "A", 1⟩, ⟨7, "A", 1⟩] : List FfdRow).length)] :=
  policy_rollup_spec [⟨0, "A", 1⟩, ⟨7, "A", 1⟩] 7 (by decide) (by decide)
    (by decide) (by decide) (by decide)

/-! ### Percentile aggregations (lines 128-129, 143) -/

/-- Sort a rational column ascending (the order statistic underlying
`np.percentile`). -/
def sortQ : List ℚ → List ℚ := sortBy (fun a b => decide (a ≤ b))

/-- `Series.dropna`: keep the non-missing values. -/
def dropna (xs : List (Option ℚ)) : List ℚ := xs.filterMap id

/-- `np.percentile` with the default linear interpolation, on a nonempty
non-missing column: position `q/100·(n−1)` in the sorted values,
interpolating between the two neighbouring order statistics. -/
def percentile_linear (q : ℚ) (xs : List ℚ) : ℚ :=
  let s := sortQ xs
  let pos : ℚ := q / 100 * ((s.length : ℚ) - 1)
  let i : Nat := Int.toNat ⌊pos⌋
  let lo := s.getD i 0
  let hi := s.getD (i + 1) lo
  lo + (pos - (⌊pos⌋ : ℚ)) * (hi - lo)

/-- `np.nanpercentile`: on empty input numpy short-circuits through
`nanmean` and yields NaN (here `none`) with only a runtime warning. -/
def nanpercentile (q : ℚ) (xs : List ℚ) : Option ℚ :=
  if xs = [] then none else some (percentile_linear q xs)

/-- `baseline_p90 = np.nanpercentile(df90["delivery_time_days"].dropna(), 90)`
(line 129). -/
def baseline_p90 (rows : List OrderRow) : Option ℚ :=
  nanpercentile 90 (dropna (rows.map (·.delivery_time_days)))

/-- `p90 = np.nanpercentile(...) if df90["delivery_time_days"].notna().any()
else np.nan` (line 143). -/
def p90 (rows : List OrderRow) : Option ℚ :=
  if (rows.map (·.delivery_time_days)).any (·.isSome) then
    nanpercentile 90 (dropna (rows.map (·.delivery_time_days)))
  else none

/-- C8: when the 90-day window has no non-missing delivery duration, both
90th-percentile aggregations evaluate to the undefined value `none` (NaN);
neither raises, both being total functions. -/
theorem p90_all_missing (clean : List OrderRow)
    (h : ∀ r ∈ df90 clean, r.delivery_time_days = none) :
    baseline_p90 (df90 clean) = none ∧ p90 (df90 clean) = none := by
  have hnil : dropna ((df90 clean).map (·.delivery_time_days)) = [] := by
    rw [dropna, List.filterMap_eq_nil_iff]
    intro o ho
    rcases List.mem_map.mp ho with ⟨r, hr, hro⟩
    rw [← hro, h r hr]
    rfl
  have hany : ((df90 clean).map (·.delivery_time_days)).any (·.isSome) = false := by
    rw [List.any_eq_false]
    intro o ho
    rcases List.mem_map.mp ho with ⟨r, hr, hro⟩
    rw [← hro, h r hr]
    simp
  constructor
  · rw [baseline_p90, hnil, nanpercentile, if_pos rfl]
  · rw [p90, hany]
    simp

/-- Witness for C8 on a one-row window whose delivery duration is missing. -/
theorem p90_all_missing_witness :
    baseline_p90 (df90 [⟨1, 0, 1, none, 5, 10⟩]) = none ∧
      p90 (df90 [⟨1, 0, 1, none, 5, 10⟩]) = none :=
  p90_all_missing [⟨1, 0, 1, none, 5, 10⟩] (by decide)

/-! ### Data loader (lines 22-111) -/

/-- A row of `incidents.csv`. -/
structure IncRow where
  incident_id : Int
  opened_at : Int
  severity : String
  title : String
  status : String
deriving DecidableEq, Repr

/-- A user-visible Streamlit banner: `st.warning` or `st.info`. -/
inductive Notice where
  | warning (msg : String)
  | info (msg : String)
deriving DecidableEq, Repr

/-- The banner text of a notice. -/
def Notice.msg : Notice → String
  | .warning m => m
  | .info m => m

def listStartsWith : List Char → List Char → Bool
  | [], _ => true
  | _ :: _, [] => false
  | a :: as, b :: bs => a == b && listStartsWith as bs

/-- Whether `pat` occurs as a contiguous substring of the second list. -/
def containsSub (pat : List Char) : List Char → Bool
  | [] => listStartsWith pat []
  | c :: rest => listStartsWith pat (c :: rest) || containsSub pat rest

/-- Whether a notice's banner text names the given file. -/
def noticeMentions (file : String) (n : Notice) : Bool :=
  containsSub file.toList (Notice.msg n).toList

/-- `Series.max().getD 0`: total version of the column maximum, used only on
the (nonempty) order table by the demo fallbacks. -/
def maxD (xs : List Int) : Int := (listMaxInt xs).getD 0

/-- `x.round(2)`: round to two decimal places. -/
def round2 (x : ℚ) : ℚ := ((round (x * 100) : ℤ) : ℚ) / 100

/-- The demo segment table (lines 53-62). -/
def demo_seg : List SegRow :=
  [⟨"S1 مسیر سریع شهری / Urban Fast-Track", "state in \x7bSP,RJ\x7d & Top10",
      2300, 95.2, 11.8, 22.0, 2300000, "Express if p90>7d"⟩,
   ⟨"S2 مسیرهای پرریسک / Long-tail Risk States", "low OTD states & Top10",
      1800, 92.0, 12.3, 14.0, 1700000, "ETA+Suppress backorder"⟩,
   ⟨"S3 مشتریان تکراری / Repeat Loyalists", "repeat_flag_90d=1",
      1200, 94.8, 14.0, 41.0, 1200000, "Coupon next order"⟩,
   ⟨"S4 مشتریان تازه‌وارد / Newcomers", "orders_count_90d=1",
      2600, 94.2, 14.8, 0.0, 2500000, "First-order assurance"⟩,
   ⟨"S5 اقلام سنگین‌وزن / Heavy-Freight", "freight top 10%",
      900, 95.6, 20.1, 9.0, 1000000, "Carrier switch / weight cap"⟩]

/-- The three scenario rows the demo impact table builds for one segment
(lines 66-79): scenarios امیدی/پایه/بدبینانه with uplifts 6/3/0.5, costs
0.8/0.6/0.4, take rate 0.12, AOV = GMV/size rounded to 2 places, and the
four derived columns initialised to 0. -/
def demo_scenario_rows (sr : SegRow) : List ImpactRow :=
  [⟨sr.segment, "امیدی", sr.gmv_90d, sr.size, round2 (sr.gmv_90d / sr.size),
      6, 8/10, 12/100, 0, 0, 0, 0⟩,
   ⟨sr.segment, "پایه", sr.gmv_90d, sr.size, round2 (sr.gmv_90d / sr.size),
      3, 6/10, 12/100, 0, 0, 0, 0⟩,
   ⟨sr.segment, "بدبینانه", sr.gmv_90d, sr.size, round2 (sr.gmv_90d / sr.size),
      1/2, 4/10, 12/100, 0, 0, 0, 0⟩]

/-- The demo impact table: the scenario rows for each segment of the current
segment table, with `recalc` applied to every row (line 87). -/
def demo_impact (seg : List SegRow) : List ImpactRow :=
  ((seg.map demo_scenario_rows).flatten).map recalc

/-- The demo incident table (lines 103-110): two open incidents 3 and 1 days
before the latest purchase of the current order table. -/
def demo_inc (clean : List OrderRow) : List IncRow :=
  [⟨101, maxD (clean.map (·.order_purchase_timestamp)) - 3, "high",
      "Carrier outage in PR", "open"⟩,
   ⟨102, maxD (clean.map (·.order_purchase_timestamp)) - 1, "medium",
      "API throttle on checkout", "open"⟩]

/-- The `np.random` draws of `load_data`, passed explicitly: the random demo
order frame (lines 40-49) and, given the latest purchase timestamp, the
random demo policy log (lines 92-99).  Two process runs correspond to two
values of this structure. -/
structure Demo where
  clean_demo : List OrderRow
  ffd_demo : Int → List FfdRow

/-- `load_data` (lines 27-111): each file is either read (`some` table) or
absent (`none`); an absent file is replaced by its demo table.  The second
component collects the emitted banners in program order.  The unused
delivered/estimated timestamp columns of the order frame are omitted. -/
def load_data (cleanF : Option (List OrderRow)) (segF : Option (List SegRow))
    (impactF : Option (List ImpactRow)) (ffdF : Option (List FfdRow))
    (incF : Option (List IncRow)) (demo : Demo) :
    (List OrderRow × List SegRow × List ImpactRow × List FfdRow × List IncRow)
      × List Notice :=
  let clean := cleanF.getD demo.clean_demo
  let seg := segF.getD demo_seg
  let impact := impactF.getD (demo_impact seg)
  let ffd := ffdF.getD
    (demo.ffd_demo (maxD (clean.map (·.order_purchase_timestamp))))
  let inc := incF.getD (demo_inc clean)
  let notices :=
    (if cleanF.isNone then
      [Notice.warning "olist_clean_with_features.csv not found — using demo frame"]
     else []) ++
    (if segF.isNone then
      [Notice.warning "segments_summary.csv not found — using demo segments"]
     else []) ++
    (if impactF.isNone then
      [Notice.warning "impact_models.csv not found — using demo impact (base scenario)"]
     else []) ++
    (if ffdF.isNone then
      [Notice.info "ffd_logs.csv not found — generating demo logs"]
     else [])
  ((clean, seg, impact, ffd, inc), notices)

/-- A fixed value for the random draws, for concrete evaluations. -/
def demo0 : Demo := ⟨[], fun _ => []⟩

/-- Counterexample to C6: with every file absent the loader emits only four
banners, and none of them names `incidents.csv` — the incident fallback
(lines 101-110) is silent. -/
theorem load_data_no_incidents_notice :
    ((load_data none none none none none demo0).2.all
        (fun n => !noticeMentions "incidents.csv" n)) = true ∧
      (load_data none none none none none demo0).2.length = 4 := by
  decide

/-- C6 (amended): for each of the four files
olist_clean_with_features.csv / segments_summary.csv / impact_models.csv /
ffd_logs.csv, absence substitutes the synthetic table and emits a banner
naming the file; an absent incidents.csv is substituted silently — no banner
names it.  The loader is a total function, so no absence crashes. -/
theorem load_data_notices (cleanF : Option (List OrderRow))
    (segF : Option (List SegRow)) (impactF : Option (List ImpactRow))
    (ffdF : Option (List FfdRow)) (incF : Option (List IncRow)) (demo : Demo) :
    (cleanF = none →
      Notice.warning "olist_clean_with_features.csv not found — using demo frame"
          ∈ (load_data cleanF segF impactF ffdF incF demo).2 ∧
        (load_data cleanF segF impactF ffdF incF demo).1.1 = demo.clean_demo) ∧
      (segF = none →
        Notice.warning "segments_summary.csv not found — using demo segments"
            ∈ (load_data cleanF segF impactF ffdF incF demo).2 ∧
          (load_data cleanF segF impactF ffdF incF demo).1.2.1 = demo_seg) ∧
      (impactF = none →
        Notice.warning
            "impact_models.csv not found — using demo impact (base scenario)"
            ∈ (load_data cleanF segF impactF ffdF incF demo).2 ∧
          (load_data cleanF segF impactF ffdF incF demo).1.2.2.1 =
            demo_impact (load_data cleanF segF impactF ffdF incF demo).1.2.1) ∧
      (ffdF = none →
        Notice.info "ffd_logs.csv not found — generating demo logs"
            ∈ (load_data cleanF segF impactF ffdF incF demo).2 ∧
          (load_data cleanF segF impactF ffdF incF demo).1.2.2.2.1 =
            demo.ffd_demo (maxD
              ((load_data cleanF segF impactF ffdF incF demo).1.1.map
                (·.order_purchase_timestamp)))) ∧
      (incF = none →
        (∀ n ∈ (load_data cleanF segF impactF ffdF incF demo).2,
            noticeMentions "incidents.csv" n = false) ∧
          (load_data cleanF segF impactF ffdF incF demo).1.2.2.2.2 =
            demo_inc (load_data cleanF segF impactF ffdF incF demo).1.1) := by
  refine ⟨?_, ?_, ?_, ?_, ?_⟩
  · rintro rfl
    cases segF <;> cases impactF <;> cases ffdF <;>
      simp [load_data]
  · rintro rfl
    cases cleanF <;> cases impactF <;> cases ffdF <;>
      simp [load_data]
  · rintro rfl
    cases cleanF <;> cases segF <;> cases ffdF <;>
      simp [load_data]
  · rintro rfl
    cases cleanF <;> cases segF <;> cases impactF <;>
      simp [load_data]
  · rintro rfl
    refine ⟨?_, by cases cleanF <;> cases segF <;> cases impactF <;>
      cases ffdF <;> simp [load_data]⟩
    intro n hn
    have hn2 : n ∈ (load_data cleanF segF impactF ffdF none demo).2 := hn
    have : (load_data cleanF segF impactF ffdF none demo).2 ⊆
        [Notice.warning "olist_clean_with_features.csv not found — using demo frame",
         Notice.warning "segments_summary.csv not found — using demo segments",
         Notice.warning "impact_models.csv not found — using demo impact (base scenario)",
         Notice.info "ffd_logs.csv not found — generating demo logs"] := by
      cases cleanF <;> cases segF <;> cases impactF <;> cases ffdF <;>
        simp [load_data, List.subset_def]
    have hn4 := this hn2
    simp only [List.mem_cons, List.not_mem_nil, or_false] at hn4
    rcases hn4 with h | h | h | h <;> subst h <;> decide

/-- Witness for C6 (amended) with every file absent. -/
theorem load_data_notices_witness :
    Notice.warning "olist_clean_with_features.csv not found — using demo frame"
        ∈ (load_data none none none none none demo0).2 ∧
      Notice.info "ffd_logs.csv not found — generating demo logs"
        ∈ (load_data none none none none none demo0).2 ∧
      ∀ n ∈ (load_data none none none none none demo0).2,
        noticeMentions "incidents.csv" n = false :=
  ⟨((load_data_notices none none none none none demo0).1 rfl).1,
    ((load_data_notices none none none none none demo0).2.2.2.1 rfl).1,
    ((load_data_notices none none none none none demo0).2.2.2.2 rfl).1⟩

/-! ### The rendering script as a sequence of state updates (lines 113-215)

The script is straight-line: each assignment writes one variable (one slot
of the state below) reading only the loaded tables and earlier slots.  The
two in-place column additions (`weekly["otd_pct"]`, `weekly["review_rolling"]`,
`gr_counts["label"]`) write derived slots; the `.copy()` calls on lines 118,
176 and 204 make the filtered frames independent of the loaded tables. -/

/-- `nsm_value = int(df90[df90["on_time"]==1]["order_id"].nunique())`
(line 136). -/
def nsm_value (rows : List OrderRow) : Nat :=
  nunique ((rows.filter (fun r => r.on_time == 1)).map (·.order_id))

/-- `df90["on_time"].mean()*100` (line 140). -/
def otd_metric (rows : List OrderRow) : ℚ :=
  mean (rows.map (fun r => (r.on_time : ℚ))) * 100

/-- `open_inc = inc[inc["status"].str.lower()=="open"].sort_values("opened_at",
ascending=False)` (lines 176-177). -/
def open_inc (inc : List IncRow) : List IncRow :=
  sortBy (fun a b => decide (b.opened_at ≤ a.opened_at))
    (inc.filter (fun r => r.status.toLower == "open"))

/-- All program variables: the five loaded tables and every derived frame,
column and scalar, in one record. -/
@[ext] structure DashState where
  clean : List OrderRow := []
  seg : List SegRow := []
  impact : List ImpactRow := []
  ffd : List FfdRow := []
  inc : List IncRow := []
  df90 : List OrderRow := []
  weekly : List WeeklyRow := []
  otd_pct_col : List ℚ := []
  review_rolling_col : List ℚ := []
  baseline_otd : ℚ := 0
  baseline_p90 : Option ℚ := none
  nsm_value : Nat := 0
  otd_metric : ℚ := 0
  p90 : Option ℚ := none
  impact_base : List ImpactRow := []
  net_gain : ℚ := 0
  open_inc : List IncRow := []
  base_impact : List (String × ℚ) := []
  seg_view : List (SegRow × Option ℚ) := []
  last7 : List FfdRow := []
  node_counts : List (String × Nat) := []
  gr_counts : List (Int × Nat) := []
  gr_labeled : List (Option String × Nat) := []
deriving Repr

@[simps] def step_df90 (s : DashState) : DashState := { s with df90 := df90 s.clean }

@[simps] def step_weekly (s : DashState) : DashState := { s with weekly := weekly s.df90 }

@[simps] def step_otd_pct (s : DashState) : DashState :=
  { s with otd_pct_col := s.weekly.map otd_pct }

@[simps] def step_review_rolling (s : DashState) : DashState :=
  { s with review_rolling_col := (List.range s.weekly.length).map (review_rolling (s.weekly.map (·.review))) }

@[simps] def step_baseline_otd (s : DashState) : DashState :=
  { s with baseline_otd := mean s.otd_pct_col }

@[simps] def step_baseline_p90 (s : DashState) : DashState :=
  { s with baseline_p90 := baseline_p90 s.df90 }

@[simps] def step_nsm (s : DashState) : DashState :=
  { s with nsm_value := nsm_value s.df90 }

@[simps] def step_otd_metric (s : DashState) : DashState :=
  { s with otd_metric := otd_metric s.df90 }

@[simps] def step_p90 (s : DashState) : DashState := { s with p90 := p90 s.df90 }

@[simps] def step_impact_base (s : DashState) : DashState :=
  { s with impact_base := impact_base s.impact }

@[simps] def step_net_gain (s : DashState) : DashState :=
  { s with net_gain := (s.impact_base.map (·.net_effect)).sum }

@[simps] def step_open_inc (s : DashState) : DashState :=
  { s with open_inc := open_inc s.inc }

@[simps] def step_base_impact (s : DashState) : DashState :=
  { s with base_impact :=
      (segKeys s.impact_base).map (fun nm =>
        (nm, ((s.impact_base.filter (fun r => r.segment == nm)).map
          (·.net_effect)).sum)) }

@[simps] def step_seg_view (s : DashState) : DashState :=
  { s with seg_view :=
      s.seg.map (fun sr => (sr, List.lookup sr.segment s.base_impact)) }

@[simps] def step_last7 (s : DashState) : DashState := { s with last7 := last7 s.ffd }

@[simps] def step_node_counts (s : DashState) : DashState :=
  { s with node_counts := node_counts s.last7 }

@[simps] def step_gr_counts (s : DashState) : DashState :=
  { s with gr_counts := gr_counts s.last7 }

@[simps] def step_gr_label (s : DashState) : DashState :=
  { s with gr_labeled := s.gr_counts.map (fun p => (grLabel p.1, p.2)) }

/-- The whole script after `load_data`, in source order (lines 116-214). -/
def runScript (s : DashState) : DashState :=
  step_gr_label (step_gr_counts (step_node_counts (step_last7 (step_seg_view
    (step_base_impact (step_open_inc (step_net_gain (step_impact_base
      (step_p90 (step_otd_metric (step_nsm (step_baseline_p90
        (step_baseline_otd (step_review_rolling (step_otd_pct
          (step_weekly (step_df90 s)))))))))))))))))

/-- The normal form of the final state: every slot written out as the
explicit function of the five loaded tables it computes. -/
@[simps] def finalState (c : List OrderRow) (sg : List SegRow) (im : List ImpactRow)
    (f : List FfdRow) (n : List IncRow) : DashState :=
  { clean := c
    seg := sg
    impact := im
    ffd := f
    inc := n
    df90 := df90 c
    weekly := weekly (df90 c)
    otd_pct_col := (weekly (df90 c)).map otd_pct
    review_rolling_col := (List.range (weekly (df90 c)).length).map (review_rolling ((weekly (df90 c)).map (·.review)))
    baseline_otd := mean ((weekly (df90 c)).map otd_pct)
    baseline_p90 := baseline_p90 (df90 c)
    nsm_value := nsm_value (df90 c)
    otd_metric := otd_metric (df90 c)
    p90 := p90 (df90 c)
    impact_base := impact_base im
    net_gain := ((impact_base im).map (·.net_effect)).sum
    open_inc := open_inc n
    base_impact := (segKeys (impact_base im)).map (fun nm =>
      (nm, (((impact_base im).filter (fun r => r.segment == nm)).map
        (·.net_effect)).sum))
    seg_view := sg.map (fun sr =>
      (sr, List.lookup sr.segment ((segKeys (impact_base im)).map (fun nm =>
        (nm, (((impact_base im).filter (fun r => r.segment == nm)).map
          (·.net_effect)).sum)))))
    last7 := last7 f
    node_counts := node_counts (last7 f)
    gr_counts := gr_counts (last7 f)
    gr_labeled := (gr_counts (last7 f)).map (fun p => (grLabel p.1, p.2)) }

theorem runScript_eq (s : DashState) :
    runScript s = finalState s.clean s.seg s.impact s.ffd s.inc := by
  apply DashState.ext <;> simp [runScript]

/-- C9: running the whole derivation pipeline leaves the five loaded source
tables untouched, and the final state — every derived table and metric — is
a pure function of those five tables: two states agreeing on the loaded
tables produce identical final states. -/
theorem pipeline_frame (s t : DashState)
    (hc : s.clean = t.clean) (hs : s.seg = t.seg) (hi : s.impact = t.impact)
    (hf : s.ffd = t.ffd) (hn : s.inc = t.inc) :
    (runScript s).clean = s.clean ∧ (runScript s).seg = s.seg ∧
      (runScript s).impact = s.impact ∧ (runScript s).ffd = s.ffd ∧
      (runScript s).inc = s.inc ∧ runScript s = runScript t := by
  rw [runScript_eq s, runScript_eq t, hc, hs, hi, hf, hn]
  exact ⟨rfl, rfl, rfl, rfl, rfl, rfl⟩

/-- Witness for C9 at the default (empty) state. -/
theorem pipeline_frame_witness :
    (runScript {}).clean = ({} : DashState).clean ∧
      (runScript {}).seg = ({} : DashState).seg ∧
      (runScript {}).impact = ({} : DashState).impact ∧
      (runScript {}).ffd = ({} : DashState).ffd ∧
      (runScript {}).inc = ({} : DashState).inc ∧
      runScript {} = runScript {} :=
  pipeline_frame {} {} rfl rfl rfl rfl rfl

/-- The state the script starts from: the loaded tables, nothing derived. -/
def initState
    (tb : List OrderRow × List SegRow × List ImpactRow × List FfdRow ×
      List IncRow) : DashState :=
  { clean := tb.1, seg := tb.2.1, impact := tb.2.2.1, ffd := tb.2.2.2.1,
    inc := tb.2.2.2.2 }

/-- C10: when all five files are present the loader never consults the
random draws, so two runs over the same file contents load identical tables
and render identical derived state. -/
theorem run_deterministic (c : List OrderRow) (sg : List SegRow)
    (im : List ImpactRow) (f : List FfdRow) (n : List IncRow)
    (d1 d2 : Demo) :
    load_data (some c) (some sg) (some im) (some f) (some n) d1 =
        load_data (some c) (some sg) (some im) (some f) (some n) d2 ∧
      runScript (initState
          (load_data (some c) (some sg) (some im) (some f) (some n) d1).1) =
        runScript (initState
          (load_data (some c) (some sg) (some im) (some f) (some n) d2).1) :=
  ⟨rfl, rfl⟩

end Olist
